import Mathlib

/-!
Verification of the fitness-tracker module (`homework.py`).

The program converts raw workout sensor readings into derived metrics
(distance, mean speed, calories) and renders a fixed-format summary line.
Python floats are embedded as rationals (`ℚ`); fallible computations
(ZeroDivisionError, NotImplementedError, dispatch failures) are embedded
with `Except`.
-/

namespace FitnessTracker

/-- Embeds `InfoMessage`: the immutable result record with the training type
name and the four computed metrics. -/
structure InfoMessage where
  training_type : String
  duration : ℚ
  distance : ℚ
  speed : ℚ
  calories : ℚ
deriving DecidableEq

/-- Runtime errors that the training computations can raise in the source:
`ZeroDivisionError` from Python division, and `NotImplementedError` from the
base class calorie method (carrying the class name interpolated into the
message `Определить get_spent_calories() в ...`). -/
inductive CalcError where
  | zeroDivision
  | notImplemented (cls : String)
deriving DecidableEq

/-- Embeds the `Training` class hierarchy as a closed sum: the base class
(which Python allows to be instantiated directly) and the three concrete
variants `Running`, `SportsWalking`, `Swimming`, each holding its
constructor arguments. -/
inductive Training where
  | base (action duration weight : ℚ)
  | running (action duration weight : ℚ)
  | sportsWalking (action duration weight height : ℚ)
  | swimming (action duration weight length_pool count_pool : ℚ)
deriving DecidableEq

/-- `Training.M_IN_KM = 1000`. -/
def M_IN_KM : ℚ := 1000

/-- `Training.MIN_IN_H = 60`. -/
def MIN_IN_H : ℚ := 60

/-- `Running.CALORIES_AVG_SPEED_MULTIPLIER = 18`. -/
def CALORIES_AVG_SPEED_MULTIPLIER : ℚ := 18

/-- `Running.CALORIES_AVG_SPEED_SHIFT = 20`. -/
def CALORIES_AVG_SPEED_SHIFT : ℚ := 20

/-- `SportsWalking.CALORIES_WEIGHT_MULTIPLIER = 0.035`. -/
def CALORIES_WEIGHT_MULTIPLIER : ℚ := 0.035

/-- `SportsWalking.CALORIES_AVG_SPEED_AND_WEIGHT_MULTIPLIER = 0.029`. -/
def CALORIES_AVG_SPEED_AND_WEIGHT_MULTIPLIER : ℚ := 0.029

/-- `Swimming.CALORIES_AVG_SPEED_SHIFT = 1.1`. -/
def SWIM_CALORIES_AVG_SPEED_SHIFT : ℚ := 1.1

/-- `Swimming.CALORIES_WEIGHT_MULTIPLIER = 2`. -/
def SWIM_CALORIES_WEIGHT_MULTIPLIER : ℚ := 2

/-- Class attribute `LEN_STEP`: `0.65` on `Training` (inherited by `Running`
and `SportsWalking`), overridden to `1.38` on `Swimming`. -/
def LEN_STEP : Training → ℚ
  | .swimming _ _ _ _ _ => 1.38
  | _ => 0.65

/-- Instance attribute `self.action`. -/
def action : Training → ℚ
  | .base a _ _ => a
  | .running a _ _ => a
  | .sportsWalking a _ _ _ => a
  | .swimming a _ _ _ _ => a

/-- Instance attribute `self.duration_h`. -/
def duration_h : Training → ℚ
  | .base _ d _ => d
  | .running _ d _ => d
  | .sportsWalking _ d _ _ => d
  | .swimming _ d _ _ _ => d

/-- Instance attribute `self.weight_kg`. -/
def weight_kg : Training → ℚ
  | .base _ _ w => w
  | .running _ _ w => w
  | .sportsWalking _ _ w _ => w
  | .swimming _ _ w _ _ => w

/-- `self.__class__.__name__` / `type(self).__name__`. -/
def className : Training → String
  | .base _ _ _ => "Training"
  | .running _ _ _ => "Running"
  | .sportsWalking _ _ _ _ => "SportsWalking"
  | .swimming _ _ _ _ _ => "Swimming"

/-- `Training.get_distance`:
`self.action * self.LEN_STEP / self.M_IN_KM` (division by the constant 1000
cannot fail). Not overridden by any subclass. -/
def get_distance (t : Training) : ℚ :=
  action t * LEN_STEP t / M_IN_KM

/-- `get_mean_speed`: the base class computes
`self.get_distance() / self.duration_h`; `Swimming` overrides it with
`self.length_pool_m * self.count_pool / self.M_IN_KM / self.duration_h`.
Division by a zero duration raises `ZeroDivisionError`. -/
def get_mean_speed (t : Training) : Except CalcError ℚ :=
  match t with
  | .swimming _ d _ lp cp =>
      if d = 0 then .error .zeroDivision
      else .ok (lp * cp / M_IN_KM / d)
  | _ =>
      if duration_h t = 0 then .error .zeroDivision
      else .ok (get_distance t / duration_h t)

/-- `Training.duration_min`: `self.duration_h * self.MIN_IN_H`. -/
def duration_min (t : Training) : ℚ :=
  duration_h t * MIN_IN_H

/-- `get_spent_calories`: raises `NotImplementedError` on the base class;
each concrete variant overrides it with its own formula.  `SportsWalking`
uses Python floor division `//` of the squared speed by the height, embedded
as `Int.floor` (Python float `//` is `math.floor` of the quotient, and
raises `ZeroDivisionError` when the height is zero). -/
def get_spent_calories (t : Training) : Except CalcError ℚ :=
  match t with
  | .base _ _ _ => .error (.notImplemented "Training")
  | .running _ _ w => do
      let s ← get_mean_speed t
      .ok ((CALORIES_AVG_SPEED_MULTIPLIER * s - CALORIES_AVG_SPEED_SHIFT)
        * w / M_IN_KM * duration_min t)
  | .sportsWalking _ _ w h => do
      let s ← get_mean_speed t
      if h = 0 then .error .zeroDivision
      else .ok ((CALORIES_WEIGHT_MULTIPLIER * w
        + (Int.floor (s ^ 2 / h) : ℚ)
          * CALORIES_AVG_SPEED_AND_WEIGHT_MULTIPLIER * w) * duration_min t)
  | .swimming _ _ w _ _ => do
      let s ← get_mean_speed t
      .ok ((s + SWIM_CALORIES_AVG_SPEED_SHIFT)
        * SWIM_CALORIES_WEIGHT_MULTIPLIER * w)

/-- `Training.show_training_info`: builds the `InfoMessage` from the class
name, the duration, and the three computed metrics (the speed and calorie
computations may raise; the first exception propagates). -/
def show_training_info (t : Training) : Except CalcError InfoMessage := do
  let s ← get_mean_speed t
  let c ← get_spent_calories t
  .ok ⟨className t, duration_h t, get_distance t, s, c⟩

/-- The three fractional digits of Python `.3f` rendering: the thousandths
remainder `f < 1000` zero-padded to exactly three characters. -/
def padZeros3 (f : ℕ) : String :=
  String.mk [Nat.digitChar (f / 100), Nat.digitChar (f / 10 % 10),
    Nat.digitChar (f % 10)]

/-- Python `.3f` formatting of a nonnegative value: round to the nearest
thousandth, then print integer part, a point, and three fractional digits. -/
def formatFixed3Abs (q : ℚ) : String :=
  toString ((round (q * 1000) : ℤ).toNat / 1000) ++ "."
    ++ padZeros3 ((round (q * 1000) : ℤ).toNat % 1000)

/-- Python `.3f` formatting (f-string `{x:.3f}`), with a leading minus sign
for negative values. -/
def formatFixed3 (q : ℚ) : String :=
  if q < 0 then "-" ++ formatFixed3Abs (-q) else formatFixed3Abs q

/-- `InfoMessage.get_message`: the fixed-format summary line with the four
metrics each rendered via `.3f`. -/
def get_message (m : InfoMessage) : String :=
  "Тип тренировки: " ++ m.training_type
    ++ "; Длительность: " ++ formatFixed3 m.duration
    ++ " ч.; Дистанция: " ++ formatFixed3 m.distance
    ++ " км; Ср. скорость: " ++ formatFixed3 m.speed
    ++ " км/ч; Потрачено ккал: " ++ formatFixed3 m.calories
    ++ "."

/-- The dispatch failure: `read_package` converts both `KeyError` (unknown
workout code) and `TypeError` (wrong constructor argument count) into the
single domain error `InputDataError('Неправильные входные данные')`. -/
inductive DispatchError where
  | inputDataError (msg : String)
deriving DecidableEq

/-- `read_package`: looks up the workout code in
`TRAININGS = {'SWM': Swimming, 'RUN': Running, 'WLK': SportsWalking}` and
splats the data list into the selected constructor; a missing key or an
argument-count mismatch is caught and re-raised as `InputDataError`. -/
def read_package (workout_type : String) (data : List ℚ) :
    Except DispatchError Training :=
  if workout_type = "SWM" then
    match data with
    | [a, d, w, lp, cp] => .ok (.swimming a d w lp cp)
    | _ => .error (.inputDataError "Неправильные входные данные")
  else if workout_type = "RUN" then
    match data with
    | [a, d, w] => .ok (.running a d w)
    | _ => .error (.inputDataError "Неправильные входные данные")
  else if workout_type = "WLK" then
    match data with
    | [a, d, w, h] => .ok (.sportsWalking a d w h)
    | _ => .error (.inputDataError "Неправильные входные данные")
  else .error (.inputDataError "Неправильные входные данные")

/-- Does a calorie computation result report the base class's
`NotImplementedError`? -/
def isNotImplementedError : Except CalcError ℚ → Bool
  | .error (.notImplemented _) => true
  | _ => false

/-- A rendered numeric field has exactly three decimal places: the string
ends in a point followed by exactly three digit characters (digits cannot
themselves contain a point, so the three characters after the final point
are precisely the fractional part). -/
def threeDecimals (s : String) : Prop :=
  ∃ a c₁ c₂ c₃, s = a ++ "." ++ String.mk [c₁, c₂, c₃]
    ∧ (String.mk [c₁, c₂, c₃]).length = 3
    ∧ c₁.isDigit = true ∧ c₂.isDigit = true ∧ c₃.isDigit = true

/-! ## Helper lemmas -/

/-- Binding an `Except.ok` value just applies the continuation. -/
theorem ok_bind {α β : Type} (a : α) (f : α → Except CalcError β) :
    (Except.ok a : Except CalcError α) >>= f = f a := rfl

/-- `Nat.digitChar` of a value below ten is a digit character. -/
theorem digitChar_isDigit : ∀ n, n < 10 → (Nat.digitChar n).isDigit = true := by
  decide

/-- Evaluation rule for `.3f` formatting of a nonnegative value whose
thousandths count is the natural number `n`. -/
theorem formatFixed3_eval (q : ℚ) (n : ℕ) (h : q * 1000 = (n : ℚ))
    (h0 : 0 ≤ q) :
    formatFixed3 q = toString (n / 1000) ++ "." ++ padZeros3 (n % 1000) := by
  rw [formatFixed3, if_neg (not_lt.mpr h0), formatFixed3Abs, h, round_natCast,
    Int.toNat_natCast]

/-- Every `.3f`-rendered value ends in a point followed by exactly three
digits. -/
theorem threeDecimals_formatFixed3 (q : ℚ) : threeDecimals (formatFixed3 q) := by
  have habs : ∀ r : ℚ, ∃ a c₁ c₂ c₃, formatFixed3Abs r
      = a ++ "." ++ String.mk [c₁, c₂, c₃]
      ∧ (String.mk [c₁, c₂, c₃]).length = 3
      ∧ c₁.isDigit = true ∧ c₂.isDigit = true ∧ c₃.isDigit = true := by
    intro r
    refine ⟨toString ((round (r * 1000) : ℤ).toNat / 1000), _, _, _, rfl, rfl,
      ?_, ?_, ?_⟩
    · exact digitChar_isDigit _ (by omega)
    · exact digitChar_isDigit _ (by omega)
    · exact digitChar_isDigit _ (by omega)
  rw [formatFixed3]
  by_cases hq : q < 0
  · rw [if_pos hq]
    obtain ⟨a, c₁, c₂, c₃, ha, h3, h1, h2, h4⟩ := habs (-q)
    exact ⟨"-" ++ a, c₁, c₂, c₃, by
      rw [ha, ← String.append_assoc, ← String.append_assoc], h3, h1, h2, h4⟩
  · rw [if_neg hq]
    exact habs q

/-- Concrete evaluation: the running example's mean speed. -/
theorem running_speed_eval :
    get_mean_speed (.running 15000 1 75) = .ok (39 / 4) := by
  simp only [get_mean_speed, get_distance, action, LEN_STEP, M_IN_KM,
    duration_h]
  norm_num

/-- Concrete evaluation: the race-walking example's mean speed. -/
theorem walking_speed_eval :
    get_mean_speed (.sportsWalking 9000 1 75 180) = .ok (117 / 20) := by
  simp only [get_mean_speed, get_distance, action, LEN_STEP, M_IN_KM,
    duration_h]
  norm_num

/-- Concrete evaluation: the swimming example's mean speed. -/
theorem swimming_speed_eval :
    get_mean_speed (.swimming 720 1 80 25 40) = .ok 1 := by
  simp only [get_mean_speed, M_IN_KM]
  norm_num

/-- Binding an `Except.error` value propagates the error. -/
theorem error_bind {α β : Type} (e : CalcError)
    (f : α → Except CalcError β) :
    (Except.error e : Except CalcError α) >>= f = .error e := rfl

/-- Concrete evaluation: the running example's calories. -/
theorem running_calories_eval :
    get_spent_calories (.running 15000 1 75) = .ok (2799 / 4) := by
  simp only [get_spent_calories]
  rw [running_speed_eval, ok_bind]
  simp only [CALORIES_AVG_SPEED_MULTIPLIER, CALORIES_AVG_SPEED_SHIFT, M_IN_KM,
    duration_min, duration_h, MIN_IN_H]
  norm_num

/-- Concrete evaluation: the running example's full summary record. -/
theorem running_info_eval :
    show_training_info (.running 15000 1 75)
      = .ok ⟨"Running", 1, 39 / 4, 39 / 4, 2799 / 4⟩ := by
  simp only [show_training_info]
  rw [running_speed_eval, ok_bind, running_calories_eval, ok_bind]
  simp only [className, duration_h, get_distance, action, LEN_STEP, M_IN_KM]
  norm_num

/-! ## Claims -/

/-- C1 counterexample: for the running variant with action=15000,
duration=1 h, weight=75 kg the computed calories are 2799/4 = 699.75
kilocalories, which is 38.25 away from the 738.0 the spec reports, so the
spec's numeric value is wrong (the formula itself is right). -/
theorem C1_counterexample :
    get_spent_calories (.running 15000 1 75) = .ok (2799 / 4)
    ∧ (2799 / 4 : ℚ) = 699.75
    ∧ |(2799 / 4 : ℚ) - 738| = 153 / 4
    ∧ (1 : ℚ) ≤ |(2799 / 4 : ℚ) - 738| := by
  refine ⟨?_, by norm_num, by rw [abs_sub_comm]; rw [abs_of_nonneg] <;> norm_num,
    by rw [abs_sub_comm]; rw [abs_of_nonneg] <;> norm_num⟩
  simp only [get_spent_calories]
  rw [running_speed_eval, ok_bind]
  simp only [CALORIES_AVG_SPEED_MULTIPLIER, CALORIES_AVG_SPEED_SHIFT, M_IN_KM,
    duration_min, duration_h, MIN_IN_H]
  norm_num

/-- C1 (amended): for the running variant the calories equal
(18 × mean_speed − 20) × weight / 1000 × duration_minutes, and for
action=15000, duration=1 h, weight=75 kg the distance is 9.75 km, the mean
speed is 9.75 km/h and the calories evaluate to 699.75 (not 738.0). -/
theorem C1_running_formula_and_example :
    (∀ a d w s, get_mean_speed (.running a d w) = .ok s →
      get_spent_calories (.running a d w)
        = .ok ((18 * s - 20) * w / 1000 * (d * 60)))
    ∧ get_distance (.running 15000 1 75) = 9.75
    ∧ get_mean_speed (.running 15000 1 75) = .ok 9.75
    ∧ get_spent_calories (.running 15000 1 75)
        = .ok ((18 * 9.75 - 20) * 75 / 1000 * (1 * 60))
    ∧ ((18 * 9.75 - 20) * 75 / 1000 * (1 * 60) : ℚ) = 699.75 := by
  have hgen : ∀ a d w s, get_mean_speed (.running a d w) = .ok s →
      get_spent_calories (.running a d w)
        = .ok ((18 * s - 20) * w / 1000 * (d * 60)) := by
    intro a d w s hs
    simp only [get_spent_calories]
    rw [hs, ok_bind]
    simp only [CALORIES_AVG_SPEED_MULTIPLIER, CALORIES_AVG_SPEED_SHIFT,
      M_IN_KM, duration_min, duration_h, MIN_IN_H]
  refine ⟨hgen, ?_, ?_, ?_, by norm_num⟩
  · simp only [get_distance, action, LEN_STEP, M_IN_KM]
    norm_num
  · rw [show (9.75 : ℚ) = 39 / 4 by norm_num]
    exact running_speed_eval
  · rw [hgen 15000 1 75 (39 / 4) running_speed_eval]
    norm_num

/-- C1 witness: the general running calorie formula applied at the concrete
example input. -/
theorem C1_witness :
    get_spent_calories (.running 15000 1 75)
      = .ok ((18 * (39 / 4) - 20) * 75 / 1000 * (1 * 60)) :=
  C1_running_formula_and_example.1 15000 1 75 (39 / 4) running_speed_eval

/-- C2: for the race-walking variant the calories equal
(0.035 × weight + ⌊speed² / height⌋ × 0.029 × weight) × duration_minutes
with floor division of speed² by height, and for action=9000, duration=1 h,
weight=75 kg, height=180 the distance and speed are 5.85 and the calories
are 157.5 (the floor term being ⌊34.2225 / 180⌋ = 0). -/
theorem C2_walking_formula_and_example :
    (∀ a d w h s, get_mean_speed (.sportsWalking a d w h) = .ok s → h ≠ 0 →
      get_spent_calories (.sportsWalking a d w h)
        = .ok ((0.035 * w + (Int.floor (s ^ 2 / h) : ℚ) * 0.029 * w)
            * (d * 60)))
    ∧ get_distance (.sportsWalking 9000 1 75 180) = 5.85
    ∧ get_mean_speed (.sportsWalking 9000 1 75 180) = .ok 5.85
    ∧ Int.floor ((5.85 : ℚ) ^ 2 / 180) = 0
    ∧ get_spent_calories (.sportsWalking 9000 1 75 180) = .ok 157.5 := by
  have hf : Int.floor (((117 : ℚ) / 20) ^ 2 / 180) = 0 := by
    rw [Int.floor_eq_iff]
    constructor
    · norm_num
    · norm_num
  have hgen : ∀ a d w h s, get_mean_speed (.sportsWalking a d w h) = .ok s →
      h ≠ 0 → get_spent_calories (.sportsWalking a d w h)
        = .ok ((0.035 * w + (Int.floor (s ^ 2 / h) : ℚ) * 0.029 * w)
            * (d * 60)) := by
    intro a d w h s hs hh
    simp only [get_spent_calories]
    rw [hs, ok_bind, if_neg hh]
    simp only [CALORIES_WEIGHT_MULTIPLIER,
      CALORIES_AVG_SPEED_AND_WEIGHT_MULTIPLIER, duration_min, duration_h,
      MIN_IN_H]
  refine ⟨hgen, ?_, ?_, ?_, ?_⟩
  · simp only [get_distance, action, LEN_STEP, M_IN_KM]
    norm_num
  · rw [show (5.85 : ℚ) = 117 / 20 by norm_num]
    exact walking_speed_eval
  · rw [show (5.85 : ℚ) = 117 / 20 by norm_num]
    exact hf
  · rw [hgen 9000 1 75 180 (117 / 20) walking_speed_eval (by norm_num), hf]
    norm_num

/-- C2 witness: the general race-walking calorie formula applied at the
concrete example input. -/
theorem C2_witness :
    get_spent_calories (.sportsWalking 9000 1 75 180)
      = .ok ((0.035 * 75
          + (Int.floor (((117 : ℚ) / 20) ^ 2 / 180) : ℚ) * 0.029 * 75)
          * (1 * 60)) :=
  C2_walking_formula_and_example.1 9000 1 75 180 (117 / 20)
    walking_speed_eval (by norm_num)

/-- C3: dispatching an unknown code or a wrong argument count yields the one
domain error `InputDataError('Неправильные входные данные')` (never a silent
default and never a raw lookup error), while "SWM", "RUN", "WLK" with
correctly sized argument lists construct the corresponding variants. -/
theorem C3_read_package_dispatch :
    (∀ a d w lp cp,
      read_package "SWM" [a, d, w, lp, cp] = .ok (.swimming a d w lp cp))
    ∧ (∀ a d w, read_package "RUN" [a, d, w] = .ok (.running a d w))
    ∧ (∀ a d w h, read_package "WLK" [a, d, w, h] = .ok (.sportsWalking a d w h))
    ∧ (∀ code data e, read_package code data = .error e →
        e = .inputDataError "Неправильные входные данные")
    ∧ (∀ code data, code ≠ "SWM" → code ≠ "RUN" → code ≠ "WLK" →
        read_package code data
          = .error (.inputDataError "Неправильные входные данные"))
    ∧ (∀ data, data.length ≠ 5 → read_package "SWM" data
          = .error (.inputDataError "Неправильные входные данные"))
    ∧ (∀ data, data.length ≠ 3 → read_package "RUN" data
          = .error (.inputDataError "Неправильные входные данные"))
    ∧ (∀ data, data.length ≠ 4 → read_package "WLK" data
          = .error (.inputDataError "Неправильные входные данные")) := by
  refine ⟨fun a d w lp cp => rfl, fun a d w => rfl, fun a d w h => rfl,
    ?_, ?_, ?_, ?_, ?_⟩
  · intro code data e h
    unfold read_package at h
    split at h
    · split at h <;> simp_all
    · split at h
      · split at h <;> simp_all
      · split at h
        · split at h <;> simp_all
        · simp_all
  · intro code data h1 h2 h3
    unfold read_package
    rw [if_neg h1, if_neg h2, if_neg h3]
  · intro data hlen
    unfold read_package
    rw [if_pos rfl]
    split <;> simp_all
  · intro data hlen
    unfold read_package
    rw [if_neg (by decide), if_pos rfl]
    split <;> simp_all
  · intro data hlen
    unfold read_package
    rw [if_neg (by decide), if_neg (by decide), if_pos rfl]
    split <;> simp_all

/-- C3 witness: the dispatch behaviour at concrete inputs — an unknown code
"XYZ", a correct "RUN" package, and a "RUN" package with a wrong argument
count. -/
theorem C3_witness :
    read_package "XYZ" [1, 2, 3]
        = .error (.inputDataError "Неправильные входные данные")
    ∧ read_package "RUN" [15000, 1, 75] = .ok (.running 15000 1 75)
    ∧ read_package "RUN" [15000, 1]
        = .error (.inputDataError "Неправильные входные данные") :=
  ⟨C3_read_package_dispatch.2.2.2.2.1 "XYZ" [1, 2, 3] (by decide) (by decide)
      (by decide),
   C3_read_package_dispatch.2.1 15000 1 75,
   C3_read_package_dispatch.2.2.2.2.2.2.1 [15000, 1] (by decide)⟩

/-- C4: the swimming variant overrides the generic speed formula with
pool_length × pool_laps / 1000 / duration and computes calories as
(mean_speed + 1.1) × 2 × weight; at action=720, duration=1 h, weight=80 kg,
pool_length=25, laps=40 the speed is 1.0 km/h and the calories are 336.0. -/
theorem C4_swimming_formulas :
    (∀ a d w lp cp, d ≠ 0 →
      get_mean_speed (.swimming a d w lp cp) = .ok (lp * cp / 1000 / d))
    ∧ (∀ a d w lp cp s, get_mean_speed (.swimming a d w lp cp) = .ok s →
      get_spent_calories (.swimming a d w lp cp) = .ok ((s + 1.1) * 2 * w))
    ∧ get_mean_speed (.swimming 720 1 80 25 40) = .ok 1
    ∧ get_spent_calories (.swimming 720 1 80 25 40) = .ok 336
    ∧ ((1 + 1.1) * 2 * 80 : ℚ) = 336 := by
  have hcal : ∀ a d w lp cp s, get_mean_speed (.swimming a d w lp cp) = .ok s →
      get_spent_calories (.swimming a d w lp cp) = .ok ((s + 1.1) * 2 * w) := by
    intro a d w lp cp s hs
    simp only [get_spent_calories]
    rw [hs, ok_bind]
    simp only [SWIM_CALORIES_AVG_SPEED_SHIFT, SWIM_CALORIES_WEIGHT_MULTIPLIER]
  refine ⟨?_, hcal, swimming_speed_eval, ?_, by norm_num⟩
  · intro a d w lp cp hd
    simp only [get_mean_speed, M_IN_KM]
    rw [if_neg hd]
  · rw [hcal 720 1 80 25 40 1 swimming_speed_eval]
    norm_num

/-- C4 witness: the swimming speed and calorie formulas applied at the
concrete example input. -/
theorem C4_witness :
    get_mean_speed (.swimming 720 1 80 25 40) = .ok (25 * 40 / 1000 / 1)
    ∧ get_spent_calories (.swimming 720 1 80 25 40)
        = .ok ((1 + 1.1) * 2 * 80) :=
  ⟨C4_swimming_formulas.1 720 1 80 25 40 (by norm_num),
   C4_swimming_formulas.2.1 720 1 80 25 40 1 swimming_speed_eval⟩

/-- C5: the rendered summary is the fixed template
`Тип тренировки: ...; Длительность: ... ч.; Дистанция: ... км; Ср.
скорость: ... км/ч; Потрачено ккал: ... .` with each of the four numeric
metrics rendered via `.3f`, i.e. with exactly three decimal places. -/
theorem C5_message_format :
    ∀ t msg, show_training_info t = .ok msg →
      get_message msg
          = "Тип тренировки: " ++ msg.training_type
            ++ "; Длительность: " ++ formatFixed3 msg.duration
            ++ " ч.; Дистанция: " ++ formatFixed3 msg.distance
            ++ " км; Ср. скорость: " ++ formatFixed3 msg.speed
            ++ " км/ч; Потрачено ккал: " ++ formatFixed3 msg.calories ++ "."
      ∧ threeDecimals (formatFixed3 msg.duration)
      ∧ threeDecimals (formatFixed3 msg.distance)
      ∧ threeDecimals (formatFixed3 msg.speed)
      ∧ threeDecimals (formatFixed3 msg.calories) := by
  intro t msg _
  exact ⟨rfl, threeDecimals_formatFixed3 _, threeDecimals_formatFixed3 _,
    threeDecimals_formatFixed3 _, threeDecimals_formatFixed3 _⟩

/-- C5 witness: the message format applied to the record produced by the
concrete running example. -/
theorem C5_witness :
    get_message ⟨"Running", 1, 39 / 4, 39 / 4, 2799 / 4⟩
        = "Тип тренировки: " ++ "Running"
          ++ "; Длительность: " ++ formatFixed3 1
          ++ " ч.; Дистанция: " ++ formatFixed3 (39 / 4)
          ++ " км; Ср. скорость: " ++ formatFixed3 (39 / 4)
          ++ " км/ч; Потрачено ккал: " ++ formatFixed3 (2799 / 4) ++ "."
      ∧ threeDecimals (formatFixed3 (1 : ℚ))
      ∧ threeDecimals (formatFixed3 (39 / 4 : ℚ))
      ∧ threeDecimals (formatFixed3 (39 / 4 : ℚ))
      ∧ threeDecimals (formatFixed3 (2799 / 4 : ℚ)) :=
  C5_message_format (.running 15000 1 75)
    ⟨"Running", 1, 39 / 4, 39 / 4, 2799 / 4⟩ running_info_eval

/-- C6: distance is action × step_length / 1000 with step length 0.65 for
running and race-walking and 1.38 for swimming; for running and race-walking
the mean speed is distance / duration; and the duration in minutes is
duration × 60. -/
theorem C6_distance_and_duration :
    (∀ a d w, get_distance (.running a d w) = a * 0.65 / 1000)
    ∧ (∀ a d w h, get_distance (.sportsWalking a d w h) = a * 0.65 / 1000)
    ∧ (∀ a d w lp cp, get_distance (.swimming a d w lp cp) = a * 1.38 / 1000)
    ∧ (∀ a d w, d ≠ 0 → get_mean_speed (.running a d w)
        = .ok (get_distance (.running a d w) / d))
    ∧ (∀ a d w h, d ≠ 0 → get_mean_speed (.sportsWalking a d w h)
        = .ok (get_distance (.sportsWalking a d w h) / d))
    ∧ ∀ t, duration_min t = duration_h t * 60 := by
  refine ⟨?_, ?_, ?_, ?_, ?_, ?_⟩
  · intro a d w
    simp only [get_distance, action, LEN_STEP, M_IN_KM]
  · intro a d w h
    simp only [get_distance, action, LEN_STEP, M_IN_KM]
  · intro a d w lp cp
    simp only [get_distance, action, LEN_STEP, M_IN_KM]
  · intro a d w hd
    simp only [get_mean_speed, duration_h]
    rw [if_neg hd]
  · intro a d w h hd
    simp only [get_mean_speed, duration_h]
    rw [if_neg hd]
  · intro t
    simp only [duration_min, MIN_IN_H]

/-- C6 witness: the generic speed formula applied at the concrete running
example input. -/
theorem C6_witness :
    get_mean_speed (.running 15000 1 75)
      = .ok (get_distance (.running 15000 1 75) / 1) :=
  C6_distance_and_duration.2.2.2.1 15000 1 75 (by norm_num)

/-- C7: computing calories on the base training type fails with the
`NotImplementedError` carrying the class name, and none of the three
concrete variants ever produces that error (their only possible failure is
a division by zero). -/
theorem C7_base_not_implemented :
    (∀ a d w, get_spent_calories (.base a d w)
        = .error (.notImplemented "Training"))
    ∧ (∀ a d w,
        isNotImplementedError (get_spent_calories (.running a d w)) = false)
    ∧ (∀ a d w h, isNotImplementedError
        (get_spent_calories (.sportsWalking a d w h)) = false)
    ∧ (∀ a d w lp cp, isNotImplementedError
        (get_spent_calories (.swimming a d w lp cp)) = false) := by
  refine ⟨fun a d w => rfl, ?_, ?_, ?_⟩
  · intro a d w
    simp only [get_spent_calories]
    by_cases hd : d = 0
    · rw [show get_mean_speed (.running a d w) = .error .zeroDivision by
        simp [get_mean_speed, duration_h, hd], error_bind]
      rfl
    · rw [show get_mean_speed (.running a d w)
          = .ok (get_distance (.running a d w) / d) by
        simp [get_mean_speed, duration_h, hd], ok_bind]
      rfl
  · intro a d w h
    simp only [get_spent_calories]
    by_cases hd : d = 0
    · rw [show get_mean_speed (.sportsWalking a d w h)
          = .error .zeroDivision by
        simp [get_mean_speed, duration_h, hd], error_bind]
      rfl
    · rw [show get_mean_speed (.sportsWalking a d w h)
          = .ok (get_distance (.sportsWalking a d w h) / d) by
        simp [get_mean_speed, duration_h, hd], ok_bind]
      by_cases hh : h = 0
      · rw [if_pos hh]
        rfl
      · rw [if_neg hh]
        rfl
  · intro a d w lp cp
    simp only [get_spent_calories]
    by_cases hd : d = 0
    · rw [show get_mean_speed (.swimming a d w lp cp)
          = .error .zeroDivision by
        simp [get_mean_speed, hd], error_bind]
      rfl
    · rw [show get_mean_speed (.swimming a d w lp cp)
          = .ok (lp * cp / M_IN_KM / d) by
        simp [get_mean_speed, hd], ok_bind]
      rfl

/-- C8: nothing guards the divisions — a zero duration makes the mean-speed
computation of each variant divide by zero, and a zero height makes the
race-walking calorie computation divide by zero. -/
theorem C8_zero_division_unguarded :
    (∀ a w, get_mean_speed (.running a 0 w) = .error .zeroDivision)
    ∧ (∀ a w h, get_mean_speed (.sportsWalking a 0 w h)
        = .error .zeroDivision)
    ∧ (∀ a w lp cp, get_mean_speed (.swimming a 0 w lp cp)
        = .error .zeroDivision)
    ∧ (∀ a d w, d ≠ 0 → get_spent_calories (.sportsWalking a d w 0)
        = .error .zeroDivision) := by
  refine ⟨?_, ?_, ?_, ?_⟩
  · intro a w
    simp [get_mean_speed, duration_h]
  · intro a w h
    simp [get_mean_speed, duration_h]
  · intro a w lp cp
    simp [get_mean_speed]
  · intro a d w hd
    simp only [get_spent_calories]
    rw [show get_mean_speed (.sportsWalking a d w 0)
        = .ok (get_distance (.sportsWalking a d w 0) / d) by
      simp [get_mean_speed, duration_h, hd], ok_bind]
    simp

/-- C8 witness: the race-walking calorie computation at height 0 and
nonzero duration reports the division by zero. -/
theorem C8_witness :
    get_spent_calories (.sportsWalking 9000 1 75 0) = .error .zeroDivision :=
  C8_zero_division_unguarded.2.2.2 9000 1 75 (by norm_num)

/-- C9: the computations are pure functions of the constructor arguments —
two training objects built from identical arguments (and two successive
calls on the same object, which in this embedding are syntactically the
same term) yield identical distance, speed, calories, and message. -/
theorem C9_determinism :
    ∀ t₁ t₂ : Training, t₁ = t₂ →
      get_distance t₁ = get_distance t₂
      ∧ get_mean_speed t₁ = get_mean_speed t₂
      ∧ get_spent_calories t₁ = get_spent_calories t₂
      ∧ show_training_info t₁ = show_training_info t₂
      ∧ Except.map get_message (show_training_info t₁)
          = Except.map get_message (show_training_info t₂) := by
  intro t₁ t₂ h
  subst h
  exact ⟨rfl, rfl, rfl, rfl, rfl⟩

/-- C9 witness: determinism applied to two identically constructed running
objects. -/
theorem C9_witness :
    get_spent_calories (.running 15000 1 75)
      = get_spent_calories (.running 15000 1 75) :=
  (C9_determinism (.running 15000 1 75) (.running 15000 1 75) rfl).2.2.1

/-- C10: for running and race-walking, mean_speed × duration recovers the
distance, but the swimming variant still reports the inherited stroke-based
distance 720 × 1.38 / 1000 = 0.9936 km while its speed × duration is
1.0 km, so the identity fails for swimming (0.9936 < 1 × 1). -/
theorem C10_swimming_distance_mismatch :
    (∀ a d w s, get_mean_speed (.running a d w) = .ok s →
      s * d = get_distance (.running a d w))
    ∧ (∀ a d w h s, get_mean_speed (.sportsWalking a d w h) = .ok s →
      s * d = get_distance (.sportsWalking a d w h))
    ∧ get_distance (.swimming 720 1 80 25 40) = 0.9936
    ∧ get_mean_speed (.swimming 720 1 80 25 40) = .ok 1
    ∧ (0.9936 : ℚ) < 1 * 1 := by
  refine ⟨?_, ?_, ?_, swimming_speed_eval, by norm_num⟩
  · intro a d w s hs
    by_cases hd : d = 0
    · simp [get_mean_speed, duration_h, hd] at hs
    · simp only [get_mean_speed, duration_h] at hs
      rw [if_neg hd] at hs
      simp only [Except.ok.injEq] at hs
      rw [← hs]
      exact div_mul_cancel₀ _ hd
  · intro a d w h s hs
    by_cases hd : d = 0
    · simp [get_mean_speed, duration_h, hd] at hs
    · simp only [get_mean_speed, duration_h] at hs
      rw [if_neg hd] at hs
      simp only [Except.ok.injEq] at hs
      rw [← hs]
      exact div_mul_cancel₀ _ hd
  · simp only [get_distance, action, LEN_STEP, M_IN_KM]
    norm_num

/-- C10 witness: the distance identity applied at the concrete running
example input. -/
theorem C10_witness :
    (39 / 4 : ℚ) * 1 = get_distance (.running 15000 1 75) :=
  C10_swimming_distance_mismatch.1 15000 1 75 (39 / 4) running_speed_eval

end FitnessTracker
